import Mathlib

/-!
Shallow embedding of the trading bot in `src/main.py` (repository
`render_API_V4`): the quantity/precision calculator, the entry-fill wait
loop, the bracket-order planner, the per-symbol signal handler
`process_trading_signal`, the reconciliation monitor `monitor_loop`
body, and the reinforcement-ladder staging `handle_reinforcement`.

Modelling conventions:
- Python floats/Decimals are modelled as `ℚ` (the source routes the
  quantity computation through `decimal.Decimal` on string-rendered
  values, which is exact decimal arithmetic).
- Exchange and ledger I/O are explicit data: an `ExchangeView` snapshot
  for the monitor, a `SignalEnv` oracle for the signal path, and a
  `Ledger` record for the persisted Google-Sheets state.  Gateway calls
  performed during a run are collected in an explicit trace.
- The per-symbol lock serializes all mutations of one symbol's record,
  so one symbol's lifecycle is modelled as sequential steps on a
  single-record ledger.
-/

/-- Binance futures order statuses used by `main.py`. -/
inductive OrderStatus
  | NEW
  | FILLED
  | TRIGGERED
  | CANCELED
  | EXPIRED
  | REJECTED
deriving DecidableEq, Repr, BEq

/-- One rung of the reinforcement ladder (`LEVELS` in `main.py`). -/
structure LevelConfig where
  capital : ℚ
  leverage : ℚ
  tp_pct : ℚ
  sl_pct : ℚ
deriving DecidableEq, Repr

/-- The ladder `LEVELS` of `main.py`, verbatim (5 rungs). -/
def LEVELS : List LevelConfig :=
  [ ⟨1, 50, 3/1000, 3/1000⟩,
    ⟨2, 50, 3/1000, 3/1000⟩,
    ⟨9/2, 50, 3/1000, 3/1000⟩,
    ⟨19/2, 50, 3/1000, 3/1000⟩,
    ⟨16, 65, 3/1000, 3/1000⟩ ]

/-- Model of `Decimal.__floordiv__`: it truncates the true quotient toward zero. -/
def decTrunc (x : ℚ) : ℤ :=
  if 0 ≤ x then ⌊x⌋ else -⌊-x⌋

/-- Embedding of `round_qty` from `main.py`: `(q // step) * step` in `Decimal`
arithmetic; the final `quantize(step, ROUND_DOWN)` re-expresses the
exact multiple of `step` at the step's exponent and does not change the
value. -/
def round_qty (qty step : ℚ) : ℚ :=
  ((decTrunc (qty / step) : ℤ) : ℚ) * step

/-- Embedding of `calculate_quantity` from `main.py`: `notional = capital * leverage`,
`raw = notional / price`, rounded by `round_qty` to the symbol's lot
step (`step` is the resolved `LOT_SIZE` step). -/
def calculate_quantity (capital leverage price step : ℚ) : ℚ :=
  round_qty (capital * leverage / price) step

/-- Python `round(x, prec)` on an exact value: round half to even at
`prec` decimal digits. -/
def roundHalfEven (x : ℚ) : ℤ :=
  let f := ⌊x⌋
  let r := x - (f : ℚ)
  if r < 1/2 then f
  else if 1/2 < r then f + 1
  else if f % 2 = 0 then f else f + 1

/-- Rounding of TP/SL stop prices to the symbol's price precision, as in
`place_tp_sl_orders_with_retry`. -/
def roundPrice (x : ℚ) (prec : ℕ) : ℚ :=
  ((roundHalfEven (x * (10 : ℚ) ^ prec) : ℤ) : ℚ) / (10 : ℚ) ^ prec

/-- Python `str.upper()` on the (ASCII) signal strings of `main.py`. -/
def pyUpper (s : String) : String := String.mk (s.data.map Char.toUpper)

/-- Side of the market entry order in `place_binance_order`:
`side = "BUY" if signal.upper() == "BUY" else "SELL"`. -/
def orderSide (signal : String) : String :=
  if pyUpper signal = "BUY" then "BUY" else "SELL"

/-- The TP/SL prices and sides computed by
`place_tp_sl_orders_with_retry` before the orders are submitted. -/
structure BracketPlan where
  tp_price : ℚ
  sl_price : ℚ
  tp_side : String
  sl_side : String
deriving DecidableEq, Repr

/-- Embedding of the price/side computation of
`place_tp_sl_orders_with_retry`: the BUY
branch is taken exactly when `signal.upper() == "BUY"`; every other
signal string takes the SELL-direction branch. -/
def bracketPlan (signal : String) (entry : ℚ) (cfg : LevelConfig)
    (prec : ℕ) : BracketPlan :=
  if pyUpper signal = "BUY" then
    ⟨roundPrice (entry * (1 + cfg.tp_pct)) prec,
     roundPrice (entry * (1 - cfg.sl_pct)) prec, "SELL", "SELL"⟩
  else
    ⟨roundPrice (entry * (1 - cfg.tp_pct)) prec,
     roundPrice (entry * (1 + cfg.sl_pct)) prec, "BUY", "BUY"⟩

/-- One poll of the entry order in `wait_for_order_execution`:
`none` models a failed `futures_get_order` call, `some (st, avg)` a
reply with status `st` and average price `avg`. -/
def waitExecAux (polls : ℕ → Option (OrderStatus × ℚ)) (marketPrice : ℚ) :
    ℕ → ℕ → ℚ
  | 0, _ => marketPrice
  | Nat.succ rem, i =>
    match polls i with
    | some (st, avg) =>
      if st = OrderStatus.FILLED ∧ 0 < avg then avg
      else if st = OrderStatus.CANCELED ∨ st = OrderStatus.EXPIRED ∨
          st = OrderStatus.REJECTED then
        -- the source raises `Exception(f"Ordre {status}")` here, but the
        -- raise sits inside the same `try` whose blanket `except` catches
        -- it and only logs a warning, so the loop sleeps and retries
        waitExecAux polls marketPrice rem (i + 1)
      else waitExecAux polls marketPrice rem (i + 1)
    | none => waitExecAux polls marketPrice rem (i + 1)

/-- Embedding of `wait_for_order_execution` from `main.py`: up to `max_attempts = 10`
polls at 1-second spacing; returns the average price on
`FILLED` with positive average price, and otherwise falls through to
the current ticker price after the loop. -/
def wait_for_order_execution (polls : ℕ → Option (OrderStatus × ℚ))
    (marketPrice : ℚ) : ℚ :=
  waitExecAux polls marketPrice 10 0

/-- C7: for nonnegative capital and leverage, positive price and a
resolvable (positive) lot step, `calculate_quantity` returns an exact
integer multiple of the lot step that never exceeds the unrounded raw
quantity `capital * leverage / price`. -/
theorem calculate_quantity_step_multiple_le_raw
    (capital leverage price step : ℚ)
    (hc : 0 ≤ capital) (hl : 0 ≤ leverage) (hp : 0 < price) (hs : 0 < step) :
    (∃ k : ℤ, calculate_quantity capital leverage price step = k * step) ∧
      calculate_quantity capital leverage price step ≤
        capital * leverage / price := by
  have hraw : 0 ≤ capital * leverage / price :=
    div_nonneg (mul_nonneg hc hl) hp.le
  have hq : 0 ≤ capital * leverage / price / step :=
    div_nonneg hraw hs.le
  constructor
  · exact ⟨decTrunc (capital * leverage / price / step), rfl⟩
  · unfold calculate_quantity round_qty decTrunc
    rw [if_pos hq]
    calc (⌊capital * leverage / price / step⌋ : ℚ) * step
        ≤ capital * leverage / price / step * step :=
          mul_le_mul_of_nonneg_right (Int.floor_le _) hs.le
      _ = capital * leverage / price := div_mul_cancel₀ _ hs.ne'

/-- Witness for C7 at the spec's own example: capital 1, leverage 50,
price 2000, lot step 0.001. -/
theorem calculate_quantity_step_multiple_le_raw_witness :
    (∃ k : ℤ, calculate_quantity 1 50 2000 (1/1000) = k * (1/1000)) ∧
      calculate_quantity 1 50 2000 (1/1000) ≤ 1 * 50 / 2000 :=
  calculate_quantity_step_multiple_le_raw 1 50 2000 (1/1000)
    (by norm_num) (by norm_num) (by norm_num) (by norm_num)

/-- C6: behaviour of the entry-fill wait.  A `FILLED` poll with a
positive average price returns that price; polls that never resolve
fall back to the market price after 10 attempts; and a terminal failure
status (here `CANCELED` on every poll) does NOT abort with an error:
the raised exception is caught by the loop's own `except`, so the code
polls all 10 attempts and then returns the market price. -/
theorem wait_for_order_execution_terminal_no_abort :
    wait_for_order_execution (fun _ => some (OrderStatus.FILLED, 5)) 1234 = 5 ∧
    wait_for_order_execution (fun _ => some (OrderStatus.NEW, 0)) 1234 = 1234 ∧
    wait_for_order_execution (fun _ => some (OrderStatus.CANCELED, 0)) 1234
      = 1234 := by
  refine ⟨?_, ?_, ?_⟩ <;> decide

/-- C10: any signal string whose upper-casing is not BUY passes the
missing-signal validation (when nonempty, with a nonzero price), is
entered on the `SELL` side, and gets the SELL-direction TP/SL bracket
plan; no unrecognized direction is rejected by the placement code. -/
theorem non_buy_signal_treated_as_sell
    (sig : String) (price entry : ℚ) (cfg : LevelConfig) (prec : ℕ)
    (hne : sig ≠ "") (hp : price ≠ 0) (hbuy : pyUpper sig ≠ "BUY") :
    ¬ (sig = "" ∨ price = 0) ∧
    orderSide sig = "SELL" ∧
    bracketPlan sig entry cfg prec =
      ⟨roundPrice (entry * (1 - cfg.tp_pct)) prec,
       roundPrice (entry * (1 + cfg.sl_pct)) prec, "BUY", "BUY"⟩ := by
  refine ⟨by tauto, ?_, ?_⟩
  · unfold orderSide
    rw [if_neg hbuy]
  · unfold bracketPlan
    rw [if_neg hbuy]

/-- Witness for C10 with the unrecognized signal value `"HOLD"`. -/
theorem non_buy_signal_treated_as_sell_witness :
    ¬ (("HOLD" : String) = "" ∨ (2000 : ℚ) = 0) ∧
    orderSide "HOLD" = "SELL" ∧
    bracketPlan "HOLD" 2000 ⟨1, 50, 3/1000, 3/1000⟩ 2 =
      ⟨roundPrice (2000 * (1 - 3/1000)) 2,
       roundPrice (2000 * (1 + 3/1000)) 2, "BUY", "BUY"⟩ :=
  non_buy_signal_treated_as_sell "HOLD" 2000 2000 ⟨1, 50, 3/1000, 3/1000⟩ 2
    (by decide) (by norm_num) (by decide)

/-- The per-symbol position record persisted by `main.py` (keys of the
`state["positions"][symbol]` dict).  `timestamp` is the record's
creation time in seconds (`none` models a missing/empty timestamp
string). -/
structure PRec where
  signal : String
  current_level : ℕ
  is_active : Bool
  pending_reinforcement : Bool
  next_level : ℕ
  quantity : ℚ
  entry_price : ℚ
  capital : ℚ
  leverage : ℚ
  order_id : ℕ
  tp_order_id : Option ℕ
  sl_order_id : Option ℕ
  alert_id : String
  timestamp : Option ℚ
deriving DecidableEq, Repr

/-- A default record, used only to fill `Option.getD` in witnesses. -/
def dummyRec : PRec :=
  ⟨"", 1, false, false, 1, 0, 0, 0, 0, 0, none, none, "", none⟩

/-- A consistent snapshot of what the exchange reports to the monitor
during one tick: the status returned by `futures_get_order` for each
order id (`none` models a failed query, the code's
`get_order_status` returning `(None, None)`), whether
`futures_get_open_orders` lists any `STOP_MARKET` /
`TAKE_PROFIT_MARKET` order, and the ticker price. -/
structure ExchangeView where
  orderStatus : ℕ → Option OrderStatus
  openTpSl : Bool
  markPrice : ℚ

/-- Embedding of `get_position_amount` from `main.py` (primary method):
it reports `1.0` when open TP/SL orders exist and `0.0` otherwise. -/
def get_position_amount (v : ExchangeView) : ℚ :=
  if v.openTpSl then 1 else 0

/-- Embedding of `safe_position_check` from `main.py`: it reports
`0.0` when no TP/SL order is resting, else defers to
`get_position_amount`. -/
def safe_position_check (v : ExchangeView) : ℚ :=
  if v.openTpSl = false then 0 else get_position_amount v

/-- Embedding of `tp_active` in `monitor_loop`: the TP order id is set and its
queried status is not in `["FILLED", "CANCELED", "EXPIRED"]` (a failed
query, `none`, also counts as active). -/
def tpActive (p : PRec) (v : ExchangeView) : Bool :=
  match p.tp_order_id with
  | some oid =>
    !(v.orderStatus oid == some OrderStatus.FILLED ||
      v.orderStatus oid == some OrderStatus.CANCELED ||
      v.orderStatus oid == some OrderStatus.EXPIRED)
  | none => false

/-- Embedding of `sl_active` in `monitor_loop`, symmetric to
`tpActive`. -/
def slActive (p : PRec) (v : ExchangeView) : Bool :=
  match p.sl_order_id with
  | some oid =>
    !(v.orderStatus oid == some OrderStatus.FILLED ||
      v.orderStatus oid == some OrderStatus.CANCELED ||
      v.orderStatus oid == some OrderStatus.EXPIRED)
  | none => false

/-- The re-queried TP status test in `monitor_loop`:
`status in ("FILLED", "TRIGGERED")`. -/
def tpFillSeen (p : PRec) (v : ExchangeView) : Bool :=
  match p.tp_order_id with
  | some oid =>
    v.orderStatus oid == some OrderStatus.FILLED ||
    v.orderStatus oid == some OrderStatus.TRIGGERED
  | none => false

/-- The re-queried SL status test in `monitor_loop`. -/
def slFillSeen (p : PRec) (v : ExchangeView) : Bool :=
  match p.sl_order_id with
  | some oid =>
    v.orderStatus oid == some OrderStatus.FILLED ||
    v.orderStatus oid == some OrderStatus.TRIGGERED
  | none => false

/-- Events emitted while the monitor processes one symbol: exchange
gateway calls plus the two ledger mutations the claims talk about. -/
inductive MEvent
  | queryOrderStatus (oid : ℕ)
  | queryOpenOrders
  | queryTicker
  | cancelOrder (oid : ℕ)
  | cancelAllOrders
  | appendHistory (closeType : String)
  | markInactive
  | saveState
deriving DecidableEq, Repr

/-- Which branch of the monitor body handled the symbol this tick. -/
inductive MonitorPath
  | skipInactive
  | skipGrace
  | manualClose
  | autoCleanup
  | tpClose
  | slClose
  | noAction
deriving DecidableEq, Repr

/-- Result of the monitor processing one symbol: the branch taken, the
events emitted in program order, and the record as left in the state
(the code mutates the loaded dict in place and calls `save_state` on
every closing branch). -/
structure MonitorResult where
  path : MonitorPath
  events : List MEvent
  post : PRec
deriving Repr

/-- Embedding of `handle_reinforcement` from `main.py`: at the ladder top the record
is simply deactivated; below it the record is staged with
`is_active = False`, `pending_reinforcement = True` and
`next_level = current_level + 1`. -/
def handle_reinforcement (p : PRec) : PRec :=
  if p.current_level + 1 > LEVELS.length then
    { p with is_active := false }
  else
    { p with is_active := false, pending_reinforcement := true,
             next_level := p.current_level + 1 }

/-- Status query issued for an order id when it is set (the pattern
`if tp_order_id: get_order_status(...)`). -/
def optQuery (o : Option ℕ) : List MEvent :=
  match o with
  | some oid => [MEvent.queryOrderStatus oid]
  | none => []

/-- Cancellation issued for an order id when it is set (the pattern
`if sl_order_id: cancel_order(...)`). -/
def optCancel (o : Option ℕ) : List MEvent :=
  match o with
  | some oid => [MEvent.cancelOrder oid]
  | none => []

/-- Status queries issued when computing `tp_active` / `sl_active`. -/
def idQueryEvents (p : PRec) : List MEvent :=
  optQuery p.tp_order_id ++ optQuery p.sl_order_id

/-- Open-order queries issued by `safe_position_check` (one call, plus
a second inside `get_position_amount` when TP/SL orders were found) and
the direct `futures_get_open_orders` of the monitor body. -/
def openOrderQueryEvents (v : ExchangeView) : List MEvent :=
  [MEvent.queryOpenOrders] ++
  (if v.openTpSl then [MEvent.queryOpenOrders] else []) ++
  [MEvent.queryOpenOrders]

/-- All gateway queries the monitor body performs before branching. -/
def baseEvents (p : PRec) (v : ExchangeView) : List MEvent :=
  idQueryEvents p ++ openOrderQueryEvents v

/-- The re-query of the TP order inside the `if tp_active:` block. -/
def tpQueryEvent (p : PRec) : List MEvent :=
  optQuery p.tp_order_id

/-- The re-query of the SL order inside the `if sl_active:` block. -/
def slQueryEvent (p : PRec) : List MEvent :=
  optQuery p.sl_order_id

/-- Cancellation of the resting SL order on the TP path (guarded by
`if sl_order_id:` in the source). -/
def cancelSlEvent (p : PRec) : List MEvent :=
  optCancel p.sl_order_id

/-- Cancellation of the resting TP order on the SL path. -/
def cancelTpEvent (p : PRec) : List MEvent :=
  optCancel p.tp_order_id

/-- The `if sl_active:` block of `monitor_loop`, reached after the TP
block did not close the position; on an SL fill it cancels the TP
order, appends history and stages the reinforcement. -/
def slPhase (p : PRec) (v : ExchangeView) (evs : List MEvent) :
    MonitorResult :=
  if slActive p v = true then
    if slFillSeen p v = true then
      ⟨MonitorPath.slClose,
       evs ++ slQueryEvent p ++ cancelTpEvent p ++
         [MEvent.appendHistory "STOP_LOSS", MEvent.markInactive,
          MEvent.saveState],
       handle_reinforcement p⟩
    else ⟨MonitorPath.noAction, evs ++ slQueryEvent p, p⟩
  else ⟨MonitorPath.noAction, evs, p⟩

/-- The monitor body for one active, past-grace symbol, in source
order: scenario 1 (manual close), scenario 2 (auto cleanup), the
`if tp_active:` block, then the `if sl_active:` block. -/
def monitorBody (p : PRec) (v : ExchangeView) : MonitorResult :=
  if tpActive p v = false ∧ slActive p v = false ∧ v.openTpSl = false ∧
      safe_position_check v = 0 then
    ⟨MonitorPath.manualClose,
     baseEvents p v ++
       [MEvent.queryTicker, MEvent.appendHistory "MANUAL_CLOSE",
        MEvent.markInactive, MEvent.saveState],
     { p with is_active := false }⟩
  else if safe_position_check v = 0 ∧
      (tpActive p v = true ∨ slActive p v = true ∨ v.openTpSl = true) then
    ⟨MonitorPath.autoCleanup,
     baseEvents p v ++
       [MEvent.cancelAllOrders, MEvent.queryTicker,
        MEvent.appendHistory "AUTO_CLEANUP", MEvent.markInactive,
        MEvent.saveState],
     { p with is_active := false }⟩
  else if tpActive p v = true then
    if tpFillSeen p v = true then
      ⟨MonitorPath.tpClose,
       baseEvents p v ++ tpQueryEvent p ++ cancelSlEvent p ++
         [MEvent.appendHistory "TAKE_PROFIT", MEvent.markInactive,
          MEvent.saveState],
       { p with is_active := false }⟩
    else slPhase p v (baseEvents p v ++ tpQueryEvent p)
  else slPhase p v (baseEvents p v)

/-- One monitor tick for one symbol: inactive records are skipped; a
record with a parseable timestamp younger than the 15-second grace
period is skipped before any gateway query; a record with an empty
timestamp skips the grace check (`time_diff` stays 0 and the
`if position_timestamp:` guard bypasses the age test). -/
def monitorStep (p : PRec) (v : ExchangeView) (now : ℚ) : MonitorResult :=
  if p.is_active = false then ⟨MonitorPath.skipInactive, [], p⟩
  else
    match p.timestamp with
    | some ts =>
      if now - ts < 15 then ⟨MonitorPath.skipGrace, [], p⟩
      else monitorBody p v
    | none => monitorBody p v

/-- Helper: with open TP/SL orders resting the position check reports
1, otherwise 0. -/
theorem safe_position_check_eq (v : ExchangeView) :
    safe_position_check v = if v.openTpSl then 1 else 0 := by
  cases h : v.openTpSl <;>
    simp [safe_position_check, get_position_amount, h]

/-- Helper: the branch actually taken by the monitor body, as a
cascade over the observation predicates. -/
theorem monitorBody_path_eq (p : PRec) (v : ExchangeView) :
    (monitorBody p v).path =
      (if tpActive p v = false ∧ slActive p v = false ∧ v.openTpSl = false
       then MonitorPath.manualClose
       else if v.openTpSl = false then MonitorPath.autoCleanup
       else if tpActive p v = true ∧ tpFillSeen p v = true then
         MonitorPath.tpClose
       else if slActive p v = true ∧ slFillSeen p v = true then
         MonitorPath.slClose
       else MonitorPath.noAction) := by
  cases htp : tpActive p v <;> cases hsl : slActive p v <;>
    cases ho : v.openTpSl <;> cases htf : tpFillSeen p v <;>
    cases hsf : slFillSeen p v <;>
    simp [monitorBody, slPhase, safe_position_check, get_position_amount,
      htp, hsl, ho, htf, hsf]

/-- Helper: `monitorStep` past the grace period runs the monitor body. -/
theorem monitorStep_past_grace (p : PRec) (v : ExchangeView) (now ts : ℚ)
    (hact : p.is_active = true) (hts : p.timestamp = some ts)
    (hgrace : ¬ now - ts < 15) :
    monitorStep p v now = monitorBody p v := by
  simp only [monitorStep, hact, hts]
  simp [hgrace]

/-- An active level-1 record with both bracket ids set, 100 seconds
old. -/
def recTpFilled : PRec :=
  { signal := "BUY", current_level := 1, is_active := true,
    pending_reinforcement := false, next_level := 1, quantity := 1/40,
    entry_price := 2000, capital := 1, leverage := 50, order_id := 7,
    tp_order_id := some 1, sl_order_id := some 2, alert_id := "a",
    timestamp := some 0 }

/-- Snapshot where the TP order reports `FILLED`, the SL order is still
resting (`NEW`), and open TP/SL orders are listed. -/
def viewTpFilled : ExchangeView :=
  { orderStatus := fun n =>
      if n = 1 then some OrderStatus.FILLED
      else if n = 2 then some OrderStatus.NEW
      else none,
    openTpSl := true, markPrice := 2000 }

/-- Counterexample to C4 as stated: on a tick where a TP fill is
observed (`FILLED` status for the TP order) with the SL still resting,
the monitor takes NO action at all this tick — the CLOSING_TP block is
gated on `tp_active`, which is false precisely when the first status
query already returned `FILLED`. -/
theorem monitor_precedence_cex :
    viewTpFilled.orderStatus 1 = some OrderStatus.FILLED ∧
    recTpFilled.tp_order_id = some 1 ∧
    (monitorStep recTpFilled viewTpFilled 100).path =
      MonitorPath.noAction := by
  refine ⟨rfl, rfl, ?_⟩
  rw [monitorStep_past_grace recTpFilled viewTpFilled 100 0 rfl rfl
    (by norm_num), monitorBody_path_eq]
  decide

/-- C4 amended: the monitor's actual per-tick decision for an active,
past-grace record.  The manual-close check comes FIRST: it fires iff
both tracked bracket orders are non-active (terminal or absent) and no
TP/SL order is listed as resting.  Next the cleanup path fires iff no
TP/SL order is resting but some tracked order still reads active.
Only then the TP path: it fires iff orders are resting, the TP status
is non-terminal (so NOT `FILLED`), and the re-queried status is
`FILLED` or `TRIGGERED`; else the SL path under the analogous
condition; otherwise no action. -/
theorem monitor_precedence_amended (p : PRec) (v : ExchangeView)
    (now ts : ℚ) (hact : p.is_active = true) (hts : p.timestamp = some ts)
    (hgrace : ¬ now - ts < 15) :
    ((monitorStep p v now).path = MonitorPath.manualClose ↔
      tpActive p v = false ∧ slActive p v = false ∧ v.openTpSl = false) ∧
    ((monitorStep p v now).path = MonitorPath.autoCleanup ↔
      v.openTpSl = false ∧ (tpActive p v = true ∨ slActive p v = true)) ∧
    ((monitorStep p v now).path = MonitorPath.tpClose ↔
      v.openTpSl = true ∧ tpActive p v = true ∧ tpFillSeen p v = true) ∧
    ((monitorStep p v now).path = MonitorPath.slClose ↔
      v.openTpSl = true ∧ ¬ (tpActive p v = true ∧ tpFillSeen p v = true) ∧
      slActive p v = true ∧ slFillSeen p v = true) := by
  rw [monitorStep_past_grace p v now ts hact hts hgrace,
    monitorBody_path_eq]
  cases htp : tpActive p v <;> cases hsl : slActive p v <;>
    cases ho : v.openTpSl <;> cases htf : tpFillSeen p v <;>
    cases hsf : slFillSeen p v <;> simp

/-- Snapshot where both bracket orders read terminal and nothing is
resting: the conditions of the (first-checked) manual-close branch. -/
def viewAllGone : ExchangeView :=
  { orderStatus := fun n =>
      if n = 1 then some OrderStatus.FILLED
      else if n = 2 then some OrderStatus.CANCELED
      else none,
    openTpSl := false, markPrice := 2000 }

/-- Witness for the amended C4: the manual-close branch fires on the
all-gone snapshot. -/
theorem monitor_precedence_amended_witness :
    (monitorStep recTpFilled viewAllGone 100).path =
      MonitorPath.manualClose :=
  ((monitor_precedence_amended recTpFilled viewAllGone 100 0 rfl rfl
    (by norm_num)).1).mpr (by decide)

/-- Read-only gateway queries among the monitor events. -/
def isQueryEvent : MEvent → Bool
  | MEvent.queryOrderStatus _ => true
  | MEvent.queryOpenOrders => true
  | _ => false

/-- Helper: an optional status query is a read-only query. -/
theorem optQuery_query (o : Option ℕ) :
    ∀ e ∈ optQuery o, isQueryEvent e = true := by
  cases o <;> simp [optQuery, isQueryEvent]

/-- Helper: the open-order queries are read-only queries. -/
theorem openOrderQueryEvents_query (v : ExchangeView) :
    ∀ e ∈ openOrderQueryEvents v, isQueryEvent e = true := by
  intro e he
  unfold openOrderQueryEvents at he
  cases hv : v.openTpSl <;> rw [hv] at he <;> simp at he <;>
    simp [he, isQueryEvent]

/-- Helper: everything the monitor emits before branching is a
read-only query. -/
theorem baseEvents_query (p : PRec) (v : ExchangeView) :
    ∀ e ∈ baseEvents p v, isQueryEvent e = true := by
  intro e he
  unfold baseEvents idQueryEvents at he
  rcases List.mem_append.mp he with h | h
  · rcases List.mem_append.mp h with h1 | h1
    · exact optQuery_query _ e h1
    · exact optQuery_query _ e h1
  · exact openOrderQueryEvents_query v e h

/-- Helper: a query event is neither a cancellation nor the
mark-inactive mutation. -/
theorem query_ne_cancel_mark (e : MEvent) (he : isQueryEvent e = true)
    (k : ℕ) : e ≠ MEvent.cancelOrder k ∧ e ≠ MEvent.markInactive := by
  cases e <;> simp_all [isQueryEvent]

/-- Helper: `slPhase` never reports the TP-close branch. -/
theorem slPhase_path (p : PRec) (v : ExchangeView) (evs : List MEvent) :
    (slPhase p v evs).path = MonitorPath.slClose ∨
    (slPhase p v evs).path = MonitorPath.noAction := by
  unfold slPhase
  split
  · split
    · exact Or.inl rfl
    · exact Or.inr rfl
  · exact Or.inr rfl

/-- Helper: a monitor tick either skips the record (inactive or within
grace) or runs the monitor body. -/
theorem monitorStep_cases (p : PRec) (v : ExchangeView) (now : ℚ) :
    monitorStep p v now = ⟨MonitorPath.skipInactive, [], p⟩ ∨
    monitorStep p v now = ⟨MonitorPath.skipGrace, [], p⟩ ∨
    monitorStep p v now = monitorBody p v := by
  unfold monitorStep
  split
  · exact Or.inl rfl
  · split
    · split
      · exact Or.inr (Or.inl rfl)
      · exact Or.inr (Or.inr rfl)
    · exact Or.inr (Or.inr rfl)

/-- C5: whenever the monitor takes the TP-close branch and an SL order
id is on record, the emitted event sequence contains the cancellation
of that SL order exactly once, and the cancellation precedes the point
where the record is marked inactive. -/
theorem tp_fill_cancels_sl_before_inactive (p : PRec) (v : ExchangeView)
    (now : ℚ) (sloid : ℕ) (hsl : p.sl_order_id = some sloid)
    (h : (monitorStep p v now).path = MonitorPath.tpClose) :
    ∃ pre post,
      (monitorStep p v now).events =
        pre ++ MEvent.cancelOrder sloid :: post ∧
      (∀ e ∈ pre, e ≠ MEvent.cancelOrder sloid ∧ e ≠ MEvent.markInactive) ∧
      MEvent.cancelOrder sloid ∉ post ∧
      MEvent.markInactive ∈ post := by
  rcases monitorStep_cases p v now with hs | hs | hs <;> rw [hs] at h ⊢
  · simp at h
  · simp at h
  · unfold monitorBody at h ⊢
    split at h
    · simp at h
    · rename_i hc1
      rw [if_neg hc1]
      split at h
      · simp at h
      · rename_i hc2
        rw [if_neg hc2]
        split at h
        · rename_i htp
          rw [if_pos htp]
          split at h
          · rename_i htf
            rw [if_pos htf]
            refine ⟨baseEvents p v ++ tpQueryEvent p,
              [MEvent.appendHistory "TAKE_PROFIT", MEvent.markInactive,
               MEvent.saveState], ?_, ?_, ?_, ?_⟩
            · simp [cancelSlEvent, optCancel, hsl]
            · intro e he
              rcases List.mem_append.mp he with h1 | h1
              · exact query_ne_cancel_mark e (baseEvents_query p v e h1)
                  sloid
              · exact query_ne_cancel_mark e
                  (optQuery_query p.tp_order_id e h1) sloid
            · simp
            · simp
          · rename_i htf
            rcases slPhase_path p v (baseEvents p v ++ tpQueryEvent p)
              with hp | hp <;> rw [hp] at h <;> exact absurd h (by decide)
        · rename_i htp
          rcases slPhase_path p v (baseEvents p v) with hp | hp <;>
            rw [hp] at h <;> exact absurd h (by decide)

/-- Snapshot where the TP order reads `TRIGGERED` (the one status that
passes both the `tp_active` gate and the fill re-check) with the SL
still resting. -/
def viewTpTriggered : ExchangeView :=
  { orderStatus := fun n =>
      if n = 1 then some OrderStatus.TRIGGERED
      else if n = 2 then some OrderStatus.NEW
      else none,
    openTpSl := true, markPrice := 2000 }

/-- Witness for C5 on a concrete TP-close tick. -/
theorem tp_fill_cancels_sl_before_inactive_witness :
    ∃ pre post,
      (monitorStep recTpFilled viewTpTriggered 100).events =
        pre ++ MEvent.cancelOrder 2 :: post ∧
      (∀ e ∈ pre, e ≠ MEvent.cancelOrder 2 ∧ e ≠ MEvent.markInactive) ∧
      MEvent.cancelOrder 2 ∉ post ∧
      MEvent.markInactive ∈ post :=
  tp_fill_cancels_sl_before_inactive recTpFilled viewTpTriggered 100 2 rfl
    (by rw [monitorStep_past_grace recTpFilled viewTpTriggered 100 0 rfl rfl
          (by norm_num), monitorBody_path_eq]
        decide)

/-- C8: within the 15-second grace period the monitor takes no action
at all on a timestamped active record (no gateway calls, no mutation),
even when the snapshot satisfies the manual-close conditions; and the
manual-close branch is taken only past the grace period and only when
zero reported position, no resting TP/SL order, and non-active tracked
bracket statuses are observed at once. -/
theorem manual_close_grace_and_conditions (p : PRec) (v : ExchangeView)
    (now ts : ℚ) (hts : p.timestamp = some ts) (hact : p.is_active = true) :
    (now - ts < 15 → monitorStep p v now = ⟨MonitorPath.skipGrace, [], p⟩) ∧
    ((monitorStep p v now).path = MonitorPath.manualClose →
      ¬ now - ts < 15 ∧ v.openTpSl = false ∧ safe_position_check v = 0 ∧
      tpActive p v = false ∧ slActive p v = false) := by
  have hskip : now - ts < 15 →
      monitorStep p v now = ⟨MonitorPath.skipGrace, [], p⟩ := by
    intro hg
    simp [monitorStep, hact, hts, hg]
  refine ⟨hskip, ?_⟩
  intro h
  by_cases hg : now - ts < 15
  · rw [hskip hg] at h
    simp at h
  · rw [monitorStep_past_grace p v now ts hact hts hg,
      monitorBody_path_eq] at h
    refine ⟨hg, ?_⟩
    by_cases h1 : tpActive p v = false ∧ slActive p v = false ∧
        v.openTpSl = false
    · obtain ⟨a, b, c⟩ := h1
      exact ⟨c, by simp [safe_position_check_eq, c], a, b⟩
    · rw [if_neg h1] at h
      split at h
      · exact absurd h (by decide)
      · split at h
        · exact absurd h (by decide)
        · split at h
          · exact absurd h (by decide)
          · exact absurd h (by decide)

/-- Witness for C8: a 5-second-old record is skipped even though the
snapshot satisfies every manual-close condition. -/
theorem manual_close_grace_and_conditions_witness :
    monitorStep recTpFilled viewAllGone 5 =
      ⟨MonitorPath.skipGrace, [], recTpFilled⟩ :=
  (manual_close_grace_and_conditions recTpFilled viewAllGone 5 0 rfl
    rfl).1 (by norm_num)

/-- The persisted ledger snapshot (the `State` sheet): at most one
position record (the model is per-symbol, mutations being serialized by
the symbol lock) and the `processed_alerts` map from alert id to the
receipt time in seconds. -/
structure Ledger where
  position : Option PRec
  processedAlerts : List (String × ℚ)
deriving DecidableEq, Repr

/-- Exchange-gateway calls made on the signal path. -/
inductive GCall
  | positionQuery
  | exchangeInfoQuery
  | cancelAllOrders
  | setLeverage
  | placeMarketOrder (side : String)
  | orderStatusPoll
  | placeTpOrder (side : String) (stopPrice : ℚ)
  | placeSlOrder (side : String) (stopPrice : ℚ)
  | cancelOrder (oid : ℕ)
deriving DecidableEq, Repr

/-- Gateway calls that place an order (market entry, leverage change
excluded, bracket orders). -/
def isOrderPlacement : GCall → Bool
  | GCall.placeMarketOrder _ => true
  | GCall.placeTpOrder _ _ => true
  | GCall.placeSlOrder _ _ => true
  | _ => false

/-- Outcome of one `process_trading_signal` call: an `HTTPException`
(`httpError`), a structured `ignored`/`error` response, or `success`. -/
inductive SignalResult
  | httpError (code : ℕ) (detail : String)
  | ignored (reason : String)
  | errorRes (reason : String)
  | success (message : String)
deriving DecidableEq, Repr

/-- Everything the exchange answers during one signal call: the
position amount reported by `get_position_amount` before the lock
(`posAmt1`), at the pre-placement double check (`posAmt2`) and at the
dead in-state recheck (`posAmt3`); the resolved lot step and price
precision; whether the symbol info is already cached (a cache miss
performs a `futures_exchange_info` gateway call); and the entry-order
outcome (fill price, order id, bracket ids — `none` models a bracket
placement that failed all retries). -/
structure SignalEnv where
  posAmt1 : ℚ
  posAmt2 : ℚ
  posAmt3 : ℚ
  stepSize : ℚ
  pricePrecision : ℕ
  symbolCached : Bool
  entryPrice : ℚ
  entryOrderId : ℕ
  tpId : Option ℕ
  slId : Option ℕ
deriving DecidableEq, Repr

/-- Gateway calls of `calculate_quantity`: `get_step_size` queries the
exchange only on a symbol-info cache miss. -/
def calcEvents (env : SignalEnv) : List GCall :=
  if env.symbolCached then [] else [GCall.exchangeInfoQuery]

/-- Result of `place_binance_order` as seen by its caller. -/
structure PlaceResult where
  calls : List GCall
  entry : ℚ
  tpId : Option ℕ
  slId : Option ℕ
deriving DecidableEq, Repr

/-- Embedding of `place_binance_order` from `main.py`: set leverage, place the market
entry on `orderSide signal`, wait for the fill (the bounded polling
loop is abstracted as a single status-poll marker; its result is
`env.entryPrice`), then attempt both bracket orders of `bracketPlan`
with bounded retry (each attempt series is abstracted as one placement
marker; `env.tpId` / `env.slId` are `none` when every retry failed). -/
def place_binance_order (sig : String) (cfg : LevelConfig)
    (env : SignalEnv) : PlaceResult :=
  let plan := bracketPlan sig env.entryPrice cfg env.pricePrecision
  { calls :=
      [GCall.setLeverage, GCall.placeMarketOrder (orderSide sig),
       GCall.orderStatusPoll,
       GCall.placeTpOrder plan.tp_side plan.tp_price,
       GCall.placeSlOrder plan.sl_side plan.sl_price],
    entry := env.entryPrice, tpId := env.tpId, slId := env.slId }

/-- The alert id of `process_trading_signal`:
`f"{symbol}_{signal}_{data.get('time', '')}"` (the model fixes the
symbol to the default `"ETHUSDC"`). -/
def alertIdOf (sig extTime : String) : String :=
  "ETHUSDC" ++ "_" ++ sig ++ "_" ++ extTime

/-- The lazy pruning of `processed_alerts`: entries older than 3600
seconds are dropped (`current_time - timestamp > 3600`). -/
def pruneAlerts (now : ℚ) (l : List (String × ℚ)) : List (String × ℚ) :=
  l.filter (fun e => if now - e.2 > 3600 then false else true)

/-- The pre-open cleanup of `process_trading_signal`: a record still
marked active while the exchange reported a zero position amount is
deactivated in memory after a cancel-all; no `save_state` happens
here. -/
def cleanupOrphan (env : SignalEnv) (st : Ledger) : List GCall × Ledger :=
  match st.position with
  | some p =>
    if p.is_active = true ∧ env.posAmt1 = 0 then
      ([GCall.cancelAllOrders],
       { st with position := some { p with is_active := false } })
    else ([], st)
  | none => ([], st)

/-- The level-1 open at the end of `process_trading_signal`: compute
the level-1 quantity, reject a non-positive quantity, run the final
position conflict check, place the bracketed entry, and on success
replace the symbol's record and persist.  `stMem` is the in-memory
state, `stSaved` the last persisted snapshot (returned unchanged on
paths that never reach `save_state`). -/
def openLevel1 (sig : String) (price : ℚ) (env : SignalEnv)
    (stMem stSaved : Ledger) (now : ℚ) (ev : List GCall) (aid : String) :
    SignalResult × List GCall × Ledger :=
  let cfg := LEVELS.getD 0 ⟨0, 0, 0, 0⟩
  let q := calculate_quantity cfg.capital cfg.leverage price env.stepSize
  let ev1 := ev ++ calcEvents env
  if q ≤ 0 then
    (SignalResult.httpError 400 "Quantite invalide pour niveau 1", ev1,
     stSaved)
  else if env.posAmt2 > 0 then
    (SignalResult.errorRes "position_conflict_final_check",
     ev1 ++ [GCall.positionQuery], stSaved)
  else
    let pb := place_binance_order sig cfg env
    let ev2 := ev1 ++ [GCall.positionQuery] ++ pb.calls
    match pb.tpId, pb.slId with
    | some t, some s =>
      let p2 : PRec :=
        { signal := sig, current_level := 1, is_active := true,
          pending_reinforcement := false, next_level := 1, quantity := q,
          entry_price := pb.entry, capital := cfg.capital,
          leverage := cfg.leverage, order_id := env.entryOrderId,
          tp_order_id := some t, sl_order_id := some s, alert_id := aid,
          timestamp := some now }
      (SignalResult.success "new_position", ev2,
       { stMem with position := some p2 })
    | _, _ =>
      (SignalResult.httpError 500 "Echec creation ordres TP/SL", ev2 ++
       [GCall.cancelOrder env.entryOrderId], stSaved)

/-- The in-state active-position recheck of `process_trading_signal`
(after dedup, before the level-1 open): if the in-memory record still
reads active, query the position amount once more; a non-zero amount
returns `ignored`, a zero amount deactivates the record in memory and
proceeds. -/
def stateCheckAndOpen (sig : String) (price : ℚ) (env : SignalEnv)
    (stMem stSaved : Ledger) (now : ℚ) (ev : List GCall) (aid : String) :
    SignalResult × List GCall × Ledger :=
  match stMem.position with
  | some p =>
    if p.is_active = true then
      let ev1 := ev ++ [GCall.positionQuery]
      if env.posAmt3 ≠ 0 then
        (SignalResult.ignored "position_already_open_in_state", ev1,
         stSaved)
      else
        openLevel1 sig price env
          { stMem with position := some { p with is_active := false } }
          stSaved now ev1 aid
    else openLevel1 sig price env stMem stSaved now ev aid
  | none => openLevel1 sig price env stMem stSaved now ev aid

/-- The duplicate-alert check of `process_trading_signal`: pruning only
happens when the id is found; a still-present id returns
`ignored/duplicate_alert` WITHOUT saving; otherwise the alert is
recorded in memory and the flow continues. -/
def dedupPhase (sig : String) (price : ℚ) (extTime : String)
    (env : SignalEnv) (stMem stSaved : Ledger) (now : ℚ)
    (ev : List GCall) : SignalResult × List GCall × Ledger :=
  let aid := alertIdOf sig extTime
  match stMem.processedAlerts.lookup aid with
  | some _ =>
    let pruned := pruneAlerts now stMem.processedAlerts
    match pruned.lookup aid with
    | some _ => (SignalResult.ignored "duplicate_alert", ev, stSaved)
    | none =>
      stateCheckAndOpen sig price env
        { stMem with processedAlerts := (aid, now) :: pruned } stSaved now
        ev aid
  | none =>
    stateCheckAndOpen sig price env
      { stMem with processedAlerts := (aid, now) :: stMem.processedAlerts }
      stSaved now ev aid

/-- The pending-reinforcement activation of `process_trading_signal`:
open at `next_level` in the direction of the NEW signal; the record
keeps its `alert_id` and `next_level` fields (the source's
`position.update` does not touch them). -/
def reinforceOpen (sig : String) (price : ℚ) (env : SignalEnv)
    (stMem stSaved : Ledger) (now : ℚ) (ev : List GCall) (p : PRec) :
    SignalResult × List GCall × Ledger :=
  let nl := p.next_level
  let cfg := LEVELS.getD (nl - 1) ⟨0, 0, 0, 0⟩
  let q := calculate_quantity cfg.capital cfg.leverage price env.stepSize
  let ev1 := ev ++ calcEvents env
  if q ≤ 0 then
    (SignalResult.httpError 400 "Quantite invalide pour renforcement",
     ev1, stSaved)
  else if env.posAmt2 > 0 then
    (SignalResult.errorRes "position_conflict_during_reinforcement",
     ev1 ++ [GCall.positionQuery], stSaved)
  else
    let pb := place_binance_order sig cfg env
    let ev2 := ev1 ++ [GCall.positionQuery] ++ pb.calls
    match pb.tpId, pb.slId with
    | some t, some s =>
      let p2 : PRec :=
        { p with is_active := true, pending_reinforcement := false,
                 current_level := nl, signal := sig, quantity := q,
                 entry_price := pb.entry, capital := cfg.capital,
                 leverage := cfg.leverage, order_id := env.entryOrderId,
                 tp_order_id := some t, sl_order_id := some s,
                 timestamp := some now }
      (SignalResult.success "reinforcement", ev2,
       { stMem with position := some p2 })
    | _, _ =>
      (SignalResult.httpError 500 "Echec creation ordres TP/SL", ev2 ++
       [GCall.cancelOrder env.entryOrderId], stSaved)

/-- The reinforcement dispatch of `process_trading_signal`: a pending
record opens at `next_level` unless `next_level` exceeds the ladder, in
which case the record is reset AND SAVED (`save_state`) and the flow
falls through to the dedup check and the level-1 open. -/
def afterCleanup (sig : String) (price : ℚ) (extTime : String)
    (env : SignalEnv) (stMem stSaved : Ledger) (now : ℚ)
    (ev : List GCall) : SignalResult × List GCall × Ledger :=
  match stMem.position with
  | some p =>
    if p.pending_reinforcement = true then
      if p.next_level > LEVELS.length then
        let pReset : PRec :=
          { p with is_active := false, pending_reinforcement := false,
                   next_level := 1 }
        let stReset : Ledger := { stMem with position := some pReset }
        dedupPhase sig price extTime env stReset stReset now ev
      else reinforceOpen sig price env stMem stSaved now ev p
    else dedupPhase sig price extTime env stMem stSaved now ev
  | none => dedupPhase sig price extTime env stMem stSaved now ev

/-- Embedding of `process_trading_signal` from `main.py`, one call on
one symbol:
validation, the pre-lock live-position check, the orphan cleanup, the
reinforcement activation, the dedup check, the in-state recheck, and
the level-1 open.  Returns the HTTP-level outcome, the gateway calls
made (in order), and the PERSISTED ledger (in-memory mutations on
paths that never reach a `save_state` are lost, since every call
reloads the sheet). -/
def process_trading_signal (sig : String) (price : ℚ) (extTime : String)
    (env : SignalEnv) (st : Ledger) (now : ℚ) :
    SignalResult × List GCall × Ledger :=
  if sig = "" ∨ price = 0 then
    (SignalResult.httpError 400 "Signal ou prix manquant", [], st)
  else if env.posAmt1 > 0 then
    (SignalResult.ignored "position_already_active_on_binance",
     [GCall.positionQuery], st)
  else
    let cleaned := cleanupOrphan env st
    afterCleanup sig price extTime env cleaned.2 st now
      (GCall.positionQuery :: cleaned.1)

/-- One reconciliation tick applied to the ledger: the monitor
processes the symbol's record (if any) and persists the updated record
on every closing branch; on skip/no-action branches the record is left
as it was. -/
def monitorTick (st : Ledger) (v : ExchangeView) (now : ℚ) : Ledger :=
  match st.position with
  | some p => { st with position := some (monitorStep p v now).post }
  | none => st

/-- The C1 invariant on a ledger snapshot: no record is simultaneously
active and pending reinforcement. -/
def LedgerInv (st : Ledger) : Prop :=
  ∀ p : PRec, st.position = some p →
    ¬ (p.is_active = true ∧ p.pending_reinforcement = true)

/-- Ledger states reachable from the empty initial state by any
interleaving of signal calls and monitor ticks (all mutations of one
symbol's record are serialized by the symbol lock). -/
inductive Reachable : Ledger → Prop
  | init : Reachable ⟨none, []⟩
  | signal (sig extTime : String) (price : ℚ) (env : SignalEnv)
      (now : ℚ) (st : Ledger) :
      Reachable st →
      Reachable (process_trading_signal sig price extTime env st now).2.2
  | monitor (v : ExchangeView) (now : ℚ) (st : Ledger) :
      Reachable st → Reachable (monitorTick st v now)

/-- Helper: `handle_reinforcement` always deactivates the record. -/
theorem handle_reinforcement_inactive (p : PRec) :
    (handle_reinforcement p).is_active = false := by
  unfold handle_reinforcement
  split <;> rfl

/-- Helper: a monitor step either leaves the record unchanged or
deactivates it. -/
theorem monitorStep_post (p : PRec) (v : ExchangeView) (now : ℚ) :
    (monitorStep p v now).post = p ∨
    (monitorStep p v now).post.is_active = false := by
  rcases monitorStep_cases p v now with hs | hs | hs <;> rw [hs]
  · exact Or.inl rfl
  · exact Or.inl rfl
  · unfold monitorBody
    split
    · exact Or.inr rfl
    · split
      · exact Or.inr rfl
      · split
        · split
          · exact Or.inr rfl
          · unfold slPhase
            split
            · split
              · exact Or.inr (handle_reinforcement_inactive p)
              · exact Or.inl rfl
            · exact Or.inl rfl
        · unfold slPhase
          split
          · split
            · exact Or.inr (handle_reinforcement_inactive p)
            · exact Or.inl rfl
          · exact Or.inl rfl

/-- Helper: a monitor tick preserves the C1 invariant. -/
theorem monitorTick_inv (st : Ledger) (v : ExchangeView) (now : ℚ)
    (h : LedgerInv st) : LedgerInv (monitorTick st v now) := by
  unfold monitorTick
  split
  · rename_i p hp
    intro q hq
    simp only [Ledger.mk.injEq] at hq
    simp at hq
    rcases monitorStep_post p v now with h1 | h1
    · rw [h1] at hq
      exact hq ▸ h p hp
    · intro ⟨ha, _⟩
      rw [← hq] at ha
      rw [h1] at ha
      cases ha
  · exact h

/-- Helper: the saved ledger of `openLevel1` is either the incoming
saved snapshot or carries a freshly opened (active, non-pending)
record. -/
theorem openLevel1_saved (sig : String) (price : ℚ) (env : SignalEnv)
    (stMem stSaved : Ledger) (now : ℚ) (ev : List GCall) (aid : String) :
    (openLevel1 sig price env stMem stSaved now ev aid).2.2 = stSaved ∨
    ∃ p2 : PRec,
      (openLevel1 sig price env stMem stSaved now ev aid).2.2 =
        { stMem with position := some p2 } ∧
      p2.is_active = true ∧ p2.pending_reinforcement = false := by
  unfold openLevel1
  dsimp only
  split
  · exact Or.inl rfl
  · split
    · exact Or.inl rfl
    · split
      · exact Or.inr ⟨_, rfl, rfl, rfl⟩
      · exact Or.inl rfl

/-- Helper: `openLevel1` preserves the C1 invariant of the saved
ledger. -/
theorem openLevel1_inv (sig : String) (price : ℚ) (env : SignalEnv)
    (stMem stSaved : Ledger) (now : ℚ) (ev : List GCall) (aid : String)
    (h : LedgerInv stSaved) :
    LedgerInv (openLevel1 sig price env stMem stSaved now ev aid).2.2 := by
  rcases openLevel1_saved sig price env stMem stSaved now ev aid with
    h1 | ⟨p2, h1, _, h3⟩ <;> rw [h1]
  · exact h
  · intro q hq
    simp at hq
    intro ⟨_, hpend⟩
    rw [← hq] at hpend
    rw [h3] at hpend
    cases hpend

/-- Helper: `stateCheckAndOpen` preserves the C1 invariant of the
saved ledger. -/
theorem stateCheckAndOpen_inv (sig : String) (price : ℚ)
    (env : SignalEnv) (stMem stSaved : Ledger) (now : ℚ)
    (ev : List GCall) (aid : String) (h : LedgerInv stSaved) :
    LedgerInv
      (stateCheckAndOpen sig price env stMem stSaved now ev aid).2.2 := by
  unfold stateCheckAndOpen
  split
  · split
    · split
      · exact h
      · exact openLevel1_inv _ _ _ _ _ _ _ _ h
    · exact openLevel1_inv _ _ _ _ _ _ _ _ h
  · exact openLevel1_inv _ _ _ _ _ _ _ _ h

/-- Helper: `dedupPhase` preserves the C1 invariant of the saved
ledger. -/
theorem dedupPhase_inv (sig : String) (price : ℚ) (extTime : String)
    (env : SignalEnv) (stMem stSaved : Ledger) (now : ℚ)
    (ev : List GCall) (h : LedgerInv stSaved) :
    LedgerInv
      (dedupPhase sig price extTime env stMem stSaved now ev).2.2 := by
  unfold dedupPhase
  dsimp only
  split
  · split
    · exact h
    · exact stateCheckAndOpen_inv _ _ _ _ _ _ _ _ h
  · exact stateCheckAndOpen_inv _ _ _ _ _ _ _ _ h

/-- Helper: the saved ledger of `reinforceOpen` is either the incoming
saved snapshot or carries the re-opened (active, non-pending)
record. -/
theorem reinforceOpen_saved (sig : String) (price : ℚ) (env : SignalEnv)
    (stMem stSaved : Ledger) (now : ℚ) (ev : List GCall) (p : PRec) :
    (reinforceOpen sig price env stMem stSaved now ev p).2.2 = stSaved ∨
    ∃ p2 : PRec,
      (reinforceOpen sig price env stMem stSaved now ev p).2.2 =
        { stMem with position := some p2 } ∧
      p2.is_active = true ∧ p2.pending_reinforcement = false := by
  unfold reinforceOpen
  dsimp only
  split
  · exact Or.inl rfl
  · split
    · exact Or.inl rfl
    · split
      · exact Or.inr ⟨_, rfl, rfl, rfl⟩
      · exact Or.inl rfl

/-- Helper: `reinforceOpen` preserves the C1 invariant of the saved
ledger. -/
theorem reinforceOpen_inv (sig : String) (price : ℚ) (env : SignalEnv)
    (stMem stSaved : Ledger) (now : ℚ) (ev : List GCall) (p : PRec)
    (h : LedgerInv stSaved) :
    LedgerInv (reinforceOpen sig price env stMem stSaved now ev p).2.2 := by
  rcases reinforceOpen_saved sig price env stMem stSaved now ev p with
    h1 | ⟨p2, h1, _, h3⟩ <;> rw [h1]
  · exact h
  · intro q hq
    simp at hq
    intro ⟨_, hpend⟩
    rw [← hq] at hpend
    rw [h3] at hpend
    cases hpend

/-- Helper: `afterCleanup` preserves the C1 invariant of the saved
ledger. -/
theorem afterCleanup_inv (sig : String) (price : ℚ) (extTime : String)
    (env : SignalEnv) (stMem stSaved : Ledger) (now : ℚ)
    (ev : List GCall) (h : LedgerInv stSaved) :
    LedgerInv
      (afterCleanup sig price extTime env stMem stSaved now ev).2.2 := by
  unfold afterCleanup
  split
  · rename_i p hp
    split
    · split
      · refine dedupPhase_inv _ _ _ _ _ _ _ _ ?_
        intro q hq
        simp at hq
        intro ⟨ha, _⟩
        rw [← hq] at ha
        cases ha
      · exact reinforceOpen_inv _ _ _ _ _ _ _ _ h
    · exact dedupPhase_inv _ _ _ _ _ _ _ _ h
  · exact dedupPhase_inv _ _ _ _ _ _ _ _ h

/-- Helper: a full `process_trading_signal` call preserves the C1
invariant of the persisted ledger. -/
theorem process_trading_signal_inv (sig : String) (price : ℚ)
    (extTime : String) (env : SignalEnv) (st : Ledger) (now : ℚ)
    (h : LedgerInv st) :
    LedgerInv (process_trading_signal sig price extTime env st now).2.2 := by
  unfold process_trading_signal
  split
  · exact h
  · split
    · exact h
    · exact afterCleanup_inv _ _ _ _ _ _ _ _ h

/-- Helper: every reachable ledger state satisfies the C1 invariant. -/
theorem reachable_inv (st : Ledger) (h : Reachable st) : LedgerInv st := by
  induction h with
  | init => intro q hq; cases hq
  | signal sig extTime price env now st' _ ih =>
    exact process_trading_signal_inv sig price extTime env st' now ih
  | monitor v now st' _ ih => exact monitorTick_inv st' v now ih

/-- C1: in every reachable ledger state, across all mutation sites
(level-1 open, reinforcement activation, TP/SL/manual closes,
reinforcement staging, orphan cleanup), no position record is ever both
active and pending reinforcement. -/
theorem reachable_active_pending_invariant (st : Ledger)
    (h : Reachable st) (p : PRec) (hp : st.position = some p) :
    ¬ (p.is_active = true ∧ p.pending_reinforcement = true) :=
  reachable_inv st h p hp

/-- A benign exchange environment for a successful level-1 open: no
live position, lot step 0.001, cached symbol info, entry filled at
2000, both brackets placed (ids 8 and 9). -/
def envOpen : SignalEnv :=
  { posAmt1 := 0, posAmt2 := 0, posAmt3 := 0, stepSize := 1/1000,
    pricePrecision := 2, symbolCached := true, entryPrice := 2000,
    entryOrderId := 7, tpId := some 8, slId := some 9 }

/-- The record created by the level-1 open of `envOpen` at price 2000
for the BUY signal with external time 169 received at time 1000. -/
def recOpened : PRec :=
  { signal := "BUY", current_level := 1, is_active := true,
    pending_reinforcement := false, next_level := 1, quantity := 1/40,
    entry_price := 2000, capital := 1, leverage := 50, order_id := 7,
    tp_order_id := some 8, sl_order_id := some 9,
    alert_id := "ETHUSDC_BUY_169", timestamp := some 1000 }

/-- Helper: the persisted ledger after one successful level-1 open from
the empty state. -/
theorem openRun_state :
    (process_trading_signal "BUY" 2000 "169" envOpen ⟨none, []⟩ 1000).2.2 =
      ⟨some recOpened, [("ETHUSDC_BUY_169", 1000)]⟩ := by
  norm_num [process_trading_signal, cleanupOrphan, afterCleanup,
    dedupPhase, alertIdOf, stateCheckAndOpen, openLevel1, calcEvents,
    place_binance_order, calculate_quantity, round_qty, decTrunc, envOpen,
    recOpened, LEVELS]
  rw [if_neg (by decide : ¬ ("BUY" : String) = "")]
  simp

/-- Witness for C1: the state reached by one successful level-1 open
carries a record that is active but not pending. -/
theorem reachable_active_pending_invariant_witness :
    ¬ (recOpened.is_active = true ∧
       recOpened.pending_reinforcement = true) :=
  reachable_active_pending_invariant
    (process_trading_signal "BUY" 2000 "169" envOpen ⟨none, []⟩ 1000).2.2
    (Reachable.signal "BUY" "169" 2000 envOpen 1000 ⟨none, []⟩
      Reachable.init)
    recOpened (by rw [openRun_state])

/-- Helper: an alert id found after pruning was present before
pruning. -/
theorem lookup_isSome_of_prune (a : String) (now : ℚ)
    (l : List (String × ℚ))
    (h : ((pruneAlerts now l).lookup a).isSome = true) :
    (l.lookup a).isSome = true := by
  induction l with
  | nil => simp [pruneAlerts] at h
  | cons hd tl ih =>
    rcases hd with ⟨k, v⟩
    unfold pruneAlerts at h ih
    rw [List.filter_cons] at h
    by_cases hf : (if now - v > 3600 then false else true) = true
    · rw [if_pos hf] at h
      by_cases hk : a == k
      · simp [List.lookup, hk]
      · simp only [List.lookup, hk] at h ⊢
        exact ih h
    · rw [if_neg hf] at h
      by_cases hk : a == k
      · simp [List.lookup, hk]
      · simp only [List.lookup, hk]
        exact ih h

/-- Helper: when the alert id survives the pruning, the dedup phase
returns `ignored/duplicate_alert` with the events accumulated so far
and the last persisted snapshot (no save happens). -/
theorem dedupPhase_duplicate (sig : String) (price : ℚ)
    (extTime : String) (env : SignalEnv) (stMem stSaved : Ledger)
    (now : ℚ) (ev : List GCall)
    (h5 : ((pruneAlerts now stMem.processedAlerts).lookup
            (alertIdOf sig extTime)).isSome = true) :
    dedupPhase sig price extTime env stMem stSaved now ev =
      (SignalResult.ignored "duplicate_alert", ev, stSaved) := by
  obtain ⟨u, hu⟩ := Option.isSome_iff_exists.mp h5
  obtain ⟨t, ht⟩ := Option.isSome_iff_exists.mp
    (lookup_isSome_of_prune (alertIdOf sig extTime) now
      stMem.processedAlerts h5)
  simp only [dedupPhase, ht, hu]

/-- Helper: the pre-open cleanup performs at most a cancel-all call. -/
theorem cleanupOrphan_calls (env : SignalEnv) (st : Ledger) :
    (cleanupOrphan env st).1 = [] ∨
    (cleanupOrphan env st).1 = [GCall.cancelAllOrders] := by
  unfold cleanupOrphan
  split
  · split
    · exact Or.inr rfl
    · exact Or.inl rfl
  · exact Or.inl rfl

/-- Helper: full run of a signal call on a ledger whose record is
staged for reinforcement (inactive, pending), with a valid next level,
positive computed quantity, no exchange-side conflicts, and both
brackets placed: the call succeeds and persists an active record at
`next_level` in the direction of the NEW signal. -/
theorem reinforce_activation_run (pst : PRec)
    (alerts : List (String × ℚ)) (sig extTime : String)
    (price now2 : ℚ) (env : SignalEnv) (tid sid : ℕ)
    (hsig : sig ≠ "") (hprice : price ≠ 0) (henv1 : ¬ env.posAmt1 > 0)
    (hinact : pst.is_active = false)
    (hpend : pst.pending_reinforcement = true)
    (hnl : ¬ pst.next_level > LEVELS.length)
    (hq : 0 < calculate_quantity
      (LEVELS.getD (pst.next_level - 1) ⟨0, 0, 0, 0⟩).capital
      (LEVELS.getD (pst.next_level - 1) ⟨0, 0, 0, 0⟩).leverage price
      env.stepSize)
    (henv2 : ¬ env.posAmt2 > 0)
    (htid : env.tpId = some tid) (hsid : env.slId = some sid) :
    process_trading_signal sig price extTime env ⟨some pst, alerts⟩
        now2 =
      (SignalResult.success "reinforcement",
       [GCall.positionQuery] ++ calcEvents env ++ [GCall.positionQuery] ++
         (place_binance_order sig
           (LEVELS.getD (pst.next_level - 1) ⟨0, 0, 0, 0⟩) env).calls,
       ⟨some { pst with
               is_active := true, pending_reinforcement := false,
               current_level := pst.next_level, signal := sig,
               quantity := calculate_quantity
                 (LEVELS.getD (pst.next_level - 1) ⟨0, 0, 0, 0⟩).capital
                 (LEVELS.getD (pst.next_level - 1) ⟨0, 0, 0, 0⟩).leverage
                 price env.stepSize,
               entry_price := env.entryPrice,
               capital :=
                 (LEVELS.getD (pst.next_level - 1) ⟨0, 0, 0, 0⟩).capital,
               leverage :=
                 (LEVELS.getD (pst.next_level - 1) ⟨0, 0, 0, 0⟩).leverage,
               order_id := env.entryOrderId, tp_order_id := some tid,
               sl_order_id := some sid,
               timestamp := some now2 }, alerts⟩) := by
  have hval : ¬ (sig = "" ∨ price = 0) := by push_neg; exact ⟨hsig, hprice⟩
  unfold process_trading_signal
  rw [if_neg hval, if_neg henv1]
  have hc : cleanupOrphan env ⟨some pst, alerts⟩ =
      ([], ⟨some pst, alerts⟩) := by
    unfold cleanupOrphan
    dsimp only
    rw [if_neg (by simp [hinact])]
  rw [hc]
  unfold afterCleanup
  dsimp only
  rw [if_pos hpend, if_neg hnl]
  unfold reinforceOpen
  dsimp only
  rw [if_neg (by push_neg; exact hq), if_neg henv2]
  have hpb1 : (place_binance_order sig
      (LEVELS.getD (pst.next_level - 1) ⟨0, 0, 0, 0⟩) env).tpId =
      some tid := htid
  have hpb2 : (place_binance_order sig
      (LEVELS.getD (pst.next_level - 1) ⟨0, 0, 0, 0⟩) env).slId =
      some sid := hsid
  rw [hpb1, hpb2]
  rfl

/-- C2 amended: for a resubmission whose alert id is still in the
dedup map (within the 1-hour TTL), with no live position reported by
the exchange, the outcome depends on the record's reinforcement flag,
because the pending-reinforcement branch runs BEFORE the dedup check.
Part 1: when no reinforcement is pending, the duplicate is answered
`ignored/duplicate_alert` and nothing is persisted — but only after
the live-position gateway query (and possibly an orphan-cleanup
cancel-all); order-placement calls are absent.  Part 2: when a
reinforcement is pending (with a valid next level, positive quantity,
no conflict, brackets placeable), the duplicate is NOT deduplicated at
all: it is answered `success` and a market entry is placed. -/
theorem duplicate_signal_amended (sig extTime : String) (price now : ℚ)
    (env : SignalEnv) (st : Ledger)
    (h1 : sig ≠ "") (h2 : price ≠ 0) (h3 : ¬ env.posAmt1 > 0)
    (h5 : ((pruneAlerts now st.processedAlerts).lookup
            (alertIdOf sig extTime)).isSome = true) :
    ((∀ p : PRec, st.position = some p →
        p.pending_reinforcement = false) →
      (process_trading_signal sig price extTime env st now).1 =
        SignalResult.ignored "duplicate_alert" ∧
      (∀ c ∈ (process_trading_signal sig price extTime env st now).2.1,
        isOrderPlacement c = false) ∧
      (process_trading_signal sig price extTime env st now).2.2 = st) ∧
    (∀ (p : PRec) (tid sid : ℕ), st.position = some p →
      p.pending_reinforcement = true → p.is_active = false →
      ¬ p.next_level > LEVELS.length →
      0 < calculate_quantity
        (LEVELS.getD (p.next_level - 1) ⟨0, 0, 0, 0⟩).capital
        (LEVELS.getD (p.next_level - 1) ⟨0, 0, 0, 0⟩).leverage price
        env.stepSize →
      ¬ env.posAmt2 > 0 → env.tpId = some tid → env.slId = some sid →
      (process_trading_signal sig price extTime env st now).1 =
        SignalResult.success "reinforcement" ∧
      GCall.placeMarketOrder (orderSide sig) ∈
        (process_trading_signal sig price extTime env st now).2.1) := by
  have hval : ¬ (sig = "" ∨ price = 0) := by push_neg; exact ⟨h1, h2⟩
  constructor
  intro h4
  have key : process_trading_signal sig price extTime env st now =
      (SignalResult.ignored "duplicate_alert",
       GCall.positionQuery :: (cleanupOrphan env st).1, st) := by
    unfold process_trading_signal
    rw [if_neg hval, if_neg h3]
    rcases hpos : st.position with _ | p
    · have hc : cleanupOrphan env st = ([], st) := by
        unfold cleanupOrphan
        rw [hpos]
      rw [hc]
      unfold afterCleanup
      simp only [hpos]
      exact dedupPhase_duplicate _ _ _ _ _ _ _ _ h5
    · have hpend : p.pending_reinforcement = false := h4 p hpos
      by_cases hcl : p.is_active = true ∧ env.posAmt1 = 0
      · have hc : cleanupOrphan env st =
            ([GCall.cancelAllOrders],
             { st with position := some { p with is_active := false } }) := by
          unfold cleanupOrphan
          rw [hpos]
          dsimp only
          rw [if_pos hcl]
        rw [hc]
        unfold afterCleanup
        dsimp only
        rw [if_neg (by simp [hpend] :
          ¬ ({ p with is_active := false } : PRec).pending_reinforcement
            = true)]
        exact dedupPhase_duplicate _ _ _ _ _ _ _ _ h5
      · have hc : cleanupOrphan env st = ([], st) := by
          unfold cleanupOrphan
          rw [hpos]
          dsimp only
          rw [if_neg hcl]
        rw [hc]
        unfold afterCleanup
        simp only [hpos]
        rw [if_neg (by simp [hpend] :
          ¬ p.pending_reinforcement = true)]
        exact dedupPhase_duplicate _ _ _ _ _ _ _ _ h5
  rw [key]
  refine ⟨rfl, ?_, rfl⟩
  intro c hc
  rcases cleanupOrphan_calls env st with h6 | h6 <;> rw [h6] at hc <;>
    simp at hc
  · rw [hc]
    rfl
  · rcases hc with hc | hc <;> rw [hc] <;> rfl
  intro p tid sid hp hpend hinact hnl hq henv2 htid hsid
  rcases st with ⟨pos, alerts⟩
  simp only at hp
  subst hp
  rw [reinforce_activation_run p alerts sig extTime price now env tid
    sid h1 h2 h3 hinact hpend hnl hq henv2 htid hsid]
  exact ⟨rfl, by simp [place_binance_order]⟩

/-- The persisted ledger after the first (successful) submission of
the BUY/169 signal: active record plus the recorded alert id. -/
def dupState : Ledger :=
  ⟨some recOpened, [("ETHUSDC_BUY_169", 1000)]⟩

/-- The staged (pending-reinforcement) record left after the level-1
BUY position of `dupState` is stopped out. -/
def recStaged : PRec :=
  { recTpFilled with is_active := false, pending_reinforcement := true,
                     next_level := 2 }

/-- A pending-reinforcement ledger in which the BUY/169 alert id is
still live in the dedup map. -/
def pendDupState : Ledger :=
  ⟨some recStaged, [("ETHUSDC_BUY_169", 1000)]⟩

/-- Witness for the amended C2 at two concrete resubmissions 100
seconds after the first call: with no pending reinforcement the
duplicate is ignored (with no placement calls and nothing persisted);
with a pending reinforcement the same duplicate opens a reinforcement
entry. -/
theorem duplicate_signal_amended_witness :
    ((process_trading_signal "BUY" 2000 "169" envOpen dupState 1100).1 =
       SignalResult.ignored "duplicate_alert" ∧
     (∀ c ∈ (process_trading_signal "BUY" 2000 "169" envOpen dupState
         1100).2.1, isOrderPlacement c = false) ∧
     (process_trading_signal "BUY" 2000 "169" envOpen dupState
        1100).2.2 = dupState) ∧
    ((process_trading_signal "BUY" 2000 "169" envOpen pendDupState
        1100).1 = SignalResult.success "reinforcement" ∧
     GCall.placeMarketOrder (orderSide "BUY") ∈
       (process_trading_signal "BUY" 2000 "169" envOpen pendDupState
          1100).2.1) :=
  ⟨(duplicate_signal_amended "BUY" "169" 2000 1100 envOpen dupState
      (by decide) (by norm_num) (by norm_num [envOpen])
      (by have hAid : "ETHUSDC" ++ "_" ++ "BUY" ++ "_" ++ "169" =
            "ETHUSDC_BUY_169" := rfl
          norm_num [pruneAlerts, alertIdOf, dupState, List.lookup,
            List.filter, hAid])).1
    (by intro p hp
        simp [dupState] at hp
        rw [← hp]
        rfl),
   (duplicate_signal_amended "BUY" "169" 2000 1100 envOpen pendDupState
      (by decide) (by norm_num) (by norm_num [envOpen])
      (by have hAid : "ETHUSDC" ++ "_" ++ "BUY" ++ "_" ++ "169" =
            "ETHUSDC_BUY_169" := rfl
          norm_num [pruneAlerts, alertIdOf, pendDupState, List.lookup,
            List.filter, hAid])).2
    recStaged 8 9 rfl rfl rfl (by decide)
    (by norm_num [recStaged, recTpFilled, LEVELS, List.getD,
      calculate_quantity, round_qty, decTrunc, envOpen])
    (by norm_num [envOpen]) rfl rfl⟩

/-- Counterexample to C2 as stated: the BUY/169 signal submitted twice
within the TTL — the second call does return
`ignored/duplicate_alert`, but it is NOT free of exchange-gateway
calls: the live-position query (and here also the orphan-cleanup
cancel-all) run before the dedup check. -/
theorem duplicate_signal_gateway_calls_cex :
    dupState =
      (process_trading_signal "BUY" 2000 "169" envOpen ⟨none, []⟩
        1000).2.2 ∧
    (process_trading_signal "BUY" 2000 "169" envOpen dupState 1100).1 =
      SignalResult.ignored "duplicate_alert" ∧
    GCall.positionQuery ∈
      (process_trading_signal "BUY" 2000 "169" envOpen dupState
        1100).2.1 := by
  have hAid : "ETHUSDC" ++ "_" ++ "BUY" ++ "_" ++ "169" =
      "ETHUSDC_BUY_169" := rfl
  refine ⟨by unfold dupState; exact openRun_state.symm, ?_, ?_⟩
  · norm_num [process_trading_signal, cleanupOrphan, afterCleanup,
      dedupPhase, alertIdOf, pruneAlerts, dupState, recOpened, envOpen,
      List.lookup, List.filter, hAid]
    rw [if_neg (by decide : ¬ ("BUY" : String) = "")]
  · norm_num [process_trading_signal, cleanupOrphan, afterCleanup,
      dedupPhase, alertIdOf, pruneAlerts, dupState, recOpened, envOpen,
      List.lookup, List.filter, hAid]
    rw [if_neg (by decide : ¬ ("BUY" : String) = "")]
    simp

/-- C3: when the monitor sees a stop-loss fill (`TRIGGERED`) for an
active, past-grace record at level `L < N` (ladder length `N = 5`),
the record is staged inactive with `pending_reinforcement = true` and
`next_level = L + 1`; and the next accepted signal for the symbol —
whatever its direction `sig`, even opposite to the prior trade —
activates the reinforcement: it opens a market entry on
`orderSide sig` at level `L + 1` and persists an active record with
`current_level = L + 1` and `signal = sig`. -/
theorem sl_staging_and_reinforcement_direction
    (p : PRec) (v : ExchangeView) (ts now : ℚ)
    (alerts : List (String × ℚ)) (sig extTime : String)
    (price now2 : ℚ) (env : SignalEnv) (tpoid sloid tid sid : ℕ)
    (hact : p.is_active = true) (hts : p.timestamp = some ts)
    (hgrace : ¬ now - ts < 15) (hopen : v.openTpSl = true)
    (htpid : p.tp_order_id = some tpoid)
    (htp : v.orderStatus tpoid = some OrderStatus.NEW)
    (hslid : p.sl_order_id = some sloid)
    (hsl : v.orderStatus sloid = some OrderStatus.TRIGGERED)
    (hL : p.current_level < LEVELS.length)
    (hsig : sig ≠ "") (hprice : price ≠ 0)
    (henv1 : ¬ env.posAmt1 > 0)
    (hq : 0 < calculate_quantity
      (LEVELS.getD p.current_level ⟨0, 0, 0, 0⟩).capital
      (LEVELS.getD p.current_level ⟨0, 0, 0, 0⟩).leverage price
      env.stepSize)
    (henv2 : ¬ env.posAmt2 > 0)
    (htid : env.tpId = some tid) (hsid : env.slId = some sid) :
    ((monitorStep p v now).post.is_active = false ∧
     (monitorStep p v now).post.pending_reinforcement = true ∧
     (monitorStep p v now).post.next_level = p.current_level + 1) ∧
    ((process_trading_signal sig price extTime env
        (monitorTick ⟨some p, alerts⟩ v now) now2).1 =
       SignalResult.success "reinforcement" ∧
     (∃ p2 : PRec,
       (process_trading_signal sig price extTime env
          (monitorTick ⟨some p, alerts⟩ v now) now2).2.2.position =
         some p2 ∧
       p2.current_level = p.current_level + 1 ∧ p2.signal = sig ∧
       p2.is_active = true ∧ p2.pending_reinforcement = false) ∧
     GCall.placeMarketOrder (orderSide sig) ∈
       (process_trading_signal sig price extTime env
          (monitorTick ⟨some p, alerts⟩ v now) now2).2.1) := by
  have h1 : tpActive p v = true := by
    simp only [tpActive, htpid, htp]
    decide
  have h2 : tpFillSeen p v = false := by
    simp only [tpFillSeen, htpid, htp]
    decide
  have h3 : slActive p v = true := by
    simp only [slActive, hslid, hsl]
    decide
  have h4 : slFillSeen p v = true := by
    simp only [slFillSeen, hslid, hsl]
    decide
  have hpost : (monitorStep p v now).post = handle_reinforcement p := by
    rw [monitorStep_past_grace p v now ts hact hts hgrace]
    simp [monitorBody, slPhase, h1, h2, h3, h4, hopen,
      safe_position_check_eq]
  have hstaged : handle_reinforcement p =
      { p with is_active := false, pending_reinforcement := true,
               next_level := p.current_level + 1 } := by
    unfold handle_reinforcement
    rw [if_neg (by omega)]
  have htick : monitorTick ⟨some p, alerts⟩ v now =
      ⟨some { p with is_active := false, pending_reinforcement := true,
                     next_level := p.current_level + 1 }, alerts⟩ := by
    unfold monitorTick
    dsimp only
    rw [hpost, hstaged]
  refine ⟨⟨by rw [hpost, hstaged], by rw [hpost, hstaged],
    by rw [hpost, hstaged]⟩, ?_⟩
  rw [htick]
  have key := reinforce_activation_run
    { p with is_active := false, pending_reinforcement := true,
             next_level := p.current_level + 1 }
    alerts sig extTime price now2 env tid sid hsig hprice henv1 rfl rfl
    (by simp only [PRec.next_level]; omega)
    (by simpa using hq) henv2 htid hsid
  simp only [PRec.next_level, Nat.add_sub_cancel] at key
  rw [key]
  refine ⟨rfl, ⟨_, rfl, rfl, rfl, rfl, rfl⟩, ?_⟩
  simp [place_binance_order]

/-- Snapshot where the SL order (id 2) reads `TRIGGERED` while the TP
order (id 1) is still resting. -/
def viewSlTriggered : ExchangeView :=
  { orderStatus := fun n =>
      if n = 1 then some OrderStatus.NEW
      else if n = 2 then some OrderStatus.TRIGGERED
      else none,
    openTpSl := true, markPrice := 2000 }

/-- Witness for C3: a BUY position at level 1 is stopped out; the next
signal is a SELL (opposite direction) and opens at level 2 on the SELL
side. -/
theorem sl_staging_and_reinforcement_direction_witness :
    (((monitorStep recTpFilled viewSlTriggered 100).post.is_active =
        false ∧
      (monitorStep recTpFilled viewSlTriggered
        100).post.pending_reinforcement = true ∧
      (monitorStep recTpFilled viewSlTriggered 100).post.next_level =
        recTpFilled.current_level + 1) ∧
     ((process_trading_signal "SELL" 2000 "t2" envOpen
         (monitorTick ⟨some recTpFilled, []⟩ viewSlTriggered 100)
         2000).1 = SignalResult.success "reinforcement" ∧
      (∃ p2 : PRec,
        (process_trading_signal "SELL" 2000 "t2" envOpen
           (monitorTick ⟨some recTpFilled, []⟩ viewSlTriggered 100)
           2000).2.2.position = some p2 ∧
        p2.current_level = recTpFilled.current_level + 1 ∧
        p2.signal = "SELL" ∧ p2.is_active = true ∧
        p2.pending_reinforcement = false) ∧
      GCall.placeMarketOrder (orderSide "SELL") ∈
        (process_trading_signal "SELL" 2000 "t2" envOpen
           (monitorTick ⟨some recTpFilled, []⟩ viewSlTriggered 100)
           2000).2.1)) :=
  sl_staging_and_reinforcement_direction recTpFilled viewSlTriggered 0
    100 [] "SELL" "t2" 2000 2000 envOpen 1 2 8 9 rfl rfl (by norm_num)
    rfl rfl rfl rfl rfl (by decide) (by decide) (by norm_num)
    (by norm_num [envOpen])
    (by norm_num [recTpFilled, LEVELS, List.getD, calculate_quantity,
      round_qty, decTrunc, envOpen])
    (by norm_num [envOpen]) rfl rfl

/-- Helper: full run of a signal call on an empty-position ledger with
a fresh alert id and a non-positive computed level-1 quantity: the call
is rejected with HTTP 400, after the live-position query (and the
symbol-filter lookup) have already run. -/
theorem quantity_reject_run (sig extTime : String) (price now : ℚ)
    (env : SignalEnv) (alerts : List (String × ℚ))
    (hsig : sig ≠ "") (hprice : price ≠ 0) (henv1 : ¬ env.posAmt1 > 0)
    (hlook : alerts.lookup (alertIdOf sig extTime) = none)
    (hq : calculate_quantity (LEVELS.getD 0 ⟨0, 0, 0, 0⟩).capital
      (LEVELS.getD 0 ⟨0, 0, 0, 0⟩).leverage price env.stepSize ≤ 0) :
    process_trading_signal sig price extTime env ⟨none, alerts⟩ now =
      (SignalResult.httpError 400 "Quantite invalide pour niveau 1",
       [GCall.positionQuery] ++ calcEvents env, ⟨none, alerts⟩) := by
  have hval : ¬ (sig = "" ∨ price = 0) := by push_neg; exact ⟨hsig, hprice⟩
  unfold process_trading_signal
  rw [if_neg hval, if_neg henv1]
  have hc : cleanupOrphan env ⟨none, alerts⟩ = ([], ⟨none, alerts⟩) := by
    unfold cleanupOrphan
    rfl
  rw [hc]
  unfold afterCleanup
  dsimp only
  unfold dedupPhase
  dsimp only
  rw [hlook]
  unfold stateCheckAndOpen
  dsimp only
  unfold openLevel1
  dsimp only
  rw [if_pos hq]

/-- C9 amended: a missing signal value or a missing (zero) price is
rejected before ANY gateway call; a non-positive computed quantity is
rejected before any order-PLACEMENT call, but only after the initial
live-position query (and, on a symbol-info cache miss, the
exchange-info lookup) have already been made — computing the quantity
requires the symbol's lot filter, so a fully gateway-silent rejection
is impossible there. -/
theorem validation_rejection_amended (sig extTime : String)
    (price now : ℚ) (env : SignalEnv) (st : Ledger) :
    ((sig = "" ∨ price = 0) →
      process_trading_signal sig price extTime env st now =
        (SignalResult.httpError 400 "Signal ou prix manquant", [], st)) ∧
    (sig ≠ "" → price ≠ 0 → ¬ env.posAmt1 > 0 → st.position = none →
      st.processedAlerts.lookup (alertIdOf sig extTime) = none →
      calculate_quantity (LEVELS.getD 0 ⟨0, 0, 0, 0⟩).capital
        (LEVELS.getD 0 ⟨0, 0, 0, 0⟩).leverage price env.stepSize ≤ 0 →
      (process_trading_signal sig price extTime env st now).1 =
        SignalResult.httpError 400 "Quantite invalide pour niveau 1" ∧
      ∀ c ∈ (process_trading_signal sig price extTime env st now).2.1,
        isOrderPlacement c = false) := by
  constructor
  · intro h
    unfold process_trading_signal
    rw [if_pos h]
  · intro hsig hprice henv1 hpos hlook hq
    rcases st with ⟨pos, alerts⟩
    simp only at hpos
    subst hpos
    rw [quantity_reject_run sig extTime price now env alerts hsig hprice
      henv1 hlook hq]
    refine ⟨rfl, ?_⟩
    intro c hc
    rcases List.mem_append.mp hc with h6 | h6
    · simp at h6
      rw [h6]
      rfl
    · unfold calcEvents at h6
      split at h6
      · simp at h6
      · simp at h6
        rw [h6]
        rfl

/-- Counterexample to C9 as stated: at price 1000000000 the computed
level-1 quantity rounds down to 0 and the request IS rejected, but
only after the live-position gateway query already ran — the rejection
is not prior to every exchange-gateway call. -/
theorem validation_gateway_calls_cex :
    (process_trading_signal "BUY" 1000000000 "x" envOpen ⟨none, []⟩
      0).1 =
      SignalResult.httpError 400 "Quantite invalide pour niveau 1" ∧
    GCall.positionQuery ∈
      (process_trading_signal "BUY" 1000000000 "x" envOpen ⟨none, []⟩
        0).2.1 := by
  have key := quantity_reject_run "BUY" "x" 1000000000 0 envOpen []
    (by decide) (by norm_num) (by norm_num [envOpen]) rfl
    (by norm_num [LEVELS, List.getD, calculate_quantity, round_qty,
      decTrunc, envOpen])
  rw [key]
  exact ⟨rfl, by simp⟩

/-- Witness for the amended C9: a missing signal is rejected with no
gateway call at all, and a vanishing quantity is rejected with only
read-only calls in the trace. -/
theorem validation_rejection_amended_witness :
    process_trading_signal "" 2000 "x" envOpen ⟨none, []⟩ 0 =
      (SignalResult.httpError 400 "Signal ou prix manquant", [],
       ⟨none, []⟩) ∧
    ((process_trading_signal "BUY" 1000000000 "x" envOpen ⟨none, []⟩
        0).1 =
      SignalResult.httpError 400 "Quantite invalide pour niveau 1" ∧
     ∀ c ∈ (process_trading_signal "BUY" 1000000000 "x" envOpen
        ⟨none, []⟩ 0).2.1, isOrderPlacement c = false) :=
  ⟨(validation_rejection_amended "" "x" 2000 0 envOpen ⟨none, []⟩).1
    (Or.inl rfl),
   (validation_rejection_amended "BUY" "x" 1000000000 0 envOpen
      ⟨none, []⟩).2 (by decide) (by norm_num) (by norm_num [envOpen])
    rfl rfl
    (by norm_num [LEVELS, List.getD, calculate_quantity, round_qty,
      decTrunc, envOpen])⟩
